import Mathlib

/-!
Verification of the printshop-os extraction/archival core.

Shallow embedding of the parts of the repository the claims concern:

* `src/scripts/lib/file_detector.py` — extension table, magic-byte table,
  priority table, `categorize_extension`, `detect_from_content`,
  `detect_from_file`, `validate_file`.
* `src/scripts/lib/printavo_api.py` — `fetch_paginated` and `iter_orders`.
  The HTTP layer (`PrintavoAPI.request`, which internally rate-limits and
  retries) is abstracted as an oracle from page number to the JSON outcome
  of the request; `None` (all retries exhausted) and non-list/non-dict JSON
  are explicit constructors.  The periodic checkpoint *write*
  (`_save_checkpoint`, every 5 pages) is file I/O that does not affect the
  returned list or the request sequence and is therefore not threaded
  through the state; the checkpoint *read* (resume point) is modelled.
* `src/scripts/lib/printavo_scraper.py` — the resize-transform resolution
  step of `_extract_file_urls` (lines 298-303).
* `src/scripts/lib/minio_uploader.py` — `UploadStats` and `sync_directory`.
  The object store is abstracted as a per-file outcome: `stat_object`
  succeeds (object already present), or it raises `S3Error` and the
  subsequent `fput_object` succeeds or raises `S3Error` with a message.

Python `while True:` loops are given an explicit fuel parameter; every
concrete scenario uses enough fuel, and the universal theorems quantify
over the fuel.
-/

/--
Lookup in a Python `dict` built from a literal list of key/value pairs.
When the literal repeats a key, the later entry overwrites the earlier one
(CPython semantics), hence the lookup takes the last matching pair.
-/
def dictGet {κ β : Type} [BEq κ] (entries : List (κ × β)) (k : κ) : Option β :=
  (entries.reverse.find? (fun e => e.1 == k)).map (fun e => e.2)

/--
Python's `needle in haystack` containment test on sequences: some
(possibly empty) contiguous segment of `haystack` equals `needle`.
-/
def hasSeg {α : Type} [BEq α] (needle : List α) : List α → Bool
  | [] => needle.isEmpty
  | a :: rest => needle.isPrefixOf (a :: rest) || hasSeg needle rest

/-! ## file_detector.py -/

/--
Python `str.lower()`, character by character (all keys involved are
ASCII, where `Char.toLower` and `str.lower` agree).
-/
def pyLower (s : String) : String := String.mk (s.data.map Char.toLower)

/-- `FileType` enum from `file_detector.py`. -/
inductive FileType where
  | ARTWORK
  | VECTOR
  | DOCUMENT
  | EMBROIDERY
  | SOURCE
  | UNKNOWN
deriving DecidableEq, BEq

/-- The `.value` string of each `FileType` member. -/
def ftValue : FileType → String
  | FileType.ARTWORK => "artwork"
  | FileType.VECTOR => "vector"
  | FileType.DOCUMENT => "document"
  | FileType.EMBROIDERY => "embroidery"
  | FileType.SOURCE => "source"
  | FileType.UNKNOWN => "unknown"

/--
`EXTENSION_MAP` dict literal from `file_detector.py`, in source order.
Note the two `'.ai'` entries: `'.ai': FileType.VECTOR` in the
"Vector graphics" block and `'.ai': FileType.SOURCE` ("Also a source
file") in the "Source files" block.  In a Python dict literal the later
entry overwrites the earlier one, which `dictGet` reproduces.
-/
def EXTENSION_MAP : List (String × FileType) :=
  [ (".png", FileType.ARTWORK),
    (".jpg", FileType.ARTWORK),
    (".jpeg", FileType.ARTWORK),
    (".gif", FileType.ARTWORK),
    (".bmp", FileType.ARTWORK),
    (".tiff", FileType.ARTWORK),
    (".tif", FileType.ARTWORK),
    (".webp", FileType.ARTWORK),
    (".ai", FileType.VECTOR),
    (".eps", FileType.VECTOR),
    (".svg", FileType.VECTOR),
    (".cdr", FileType.VECTOR),
    (".pdf", FileType.DOCUMENT),
    (".dst", FileType.EMBROIDERY),
    (".pes", FileType.EMBROIDERY),
    (".exp", FileType.EMBROIDERY),
    (".jef", FileType.EMBROIDERY),
    (".vp3", FileType.EMBROIDERY),
    (".hus", FileType.EMBROIDERY),
    (".xxx", FileType.EMBROIDERY),
    (".sew", FileType.EMBROIDERY),
    (".shv", FileType.EMBROIDERY),
    (".pcs", FileType.EMBROIDERY),
    (".psd", FileType.SOURCE),
    (".indd", FileType.SOURCE),
    (".idml", FileType.SOURCE),
    (".ai", FileType.SOURCE),
    (".afdesign", FileType.SOURCE),
    (".afphoto", FileType.SOURCE) ]

/--
`MAGIC_BYTES` dict from `file_detector.py`, iterated in insertion order.
Bytes are modelled as `Nat` values.  Values are the mapped extensions.
-/
def MAGIC_BYTES : List (List Nat × String) :=
  [ ([0x89, 0x50, 0x4E, 0x47, 0x0D, 0x0A, 0x1A, 0x0A], ".png"),
    ([0xFF, 0xD8, 0xFF], ".jpg"),
    ([0x47, 0x49, 0x46, 0x38, 0x37, 0x61], ".gif"),
    ([0x47, 0x49, 0x46, 0x38, 0x39, 0x61], ".gif"),
    ([0x25, 0x50, 0x44, 0x46], ".pdf"),
    ([0x25, 0x21, 0x50, 0x53], ".eps"),
    ([0x52, 0x49, 0x46, 0x46], ".webp"),
    ([0x50, 0x4B, 0x03, 0x04], ".zip") ]

/-- `FileDetector.PRIORITY` dict from `file_detector.py`. -/
def PRIORITY : List (FileType × Nat) :=
  [ (FileType.EMBROIDERY, 5),
    (FileType.VECTOR, 4),
    (FileType.DOCUMENT, 3),
    (FileType.ARTWORK, 2),
    (FileType.SOURCE, 3),
    (FileType.UNKNOWN, 0) ]

/-- `FileDetector.get_priority`: `cls.PRIORITY.get(file_type, 0)`. -/
def get_priority (file_type : FileType) : Nat :=
  (dictGet PRIORITY file_type).getD 0

/--
`FileDetector.categorize_extension`: empty string gives `UNKNOWN`; a
leading dot is added when absent; lookup is on the lowercased key with
default `UNKNOWN`.
-/
def categorize_extension (ext : String) : FileType :=
  if ext.data.isEmpty then FileType.UNKNOWN
  else
    let e :=
      match ext.data with
      | '.' :: _ => ext
      | _ => "." ++ ext
    (dictGet EXTENSION_MAP (pyLower e)).getD FileType.UNKNOWN

/--
A file on disk, as far as `FileDetector` reads it: the `Path.suffix` of
its name (including the dot, possibly empty) and its byte content.
A non-existent path is `Option.none` at the use sites.
-/
structure DiskFile where
  suffix : String
  content : List Nat
deriving DecidableEq

/--
`FileDetector._is_dst_file`: at least 512 bytes and the `b'LA:'` label
marker somewhere in the first 512 bytes.
-/
def is_dst_file (data : List Nat) : Bool :=
  decide (data.length ≥ 512) && hasSeg [0x4C, 0x41, 0x3A] (data.take 512)

/--
`FileDetector.detect_from_content`: fewer than 4 bytes (which subsumes
`not data`) gives `UNKNOWN`; then the first matching magic-byte entry,
with the extension mapped through `EXTENSION_MAP` (default `UNKNOWN`);
then the DST heuristic, the `#PES` header check, and the leading byte
`0x80` EXP check.
-/
def detect_from_content (data : List Nat) : Option String × FileType :=
  if data.length < 4 then (none, FileType.UNKNOWN)
  else
    match MAGIC_BYTES.find? (fun me => me.1.isPrefixOf data) with
    | some me => (some me.2, (dictGet EXTENSION_MAP me.2).getD FileType.UNKNOWN)
    | none =>
      if is_dst_file data then (some ".dst", FileType.EMBROIDERY)
      else if data.take 4 == [0x23, 0x50, 0x45, 0x53] then (some ".pes", FileType.EMBROIDERY)
      else if decide (data.length > 2) && (data.headD 0 == 0x80) then (some ".exp", FileType.EMBROIDERY)
      else (none, FileType.UNKNOWN)

/--
`FileDetector.detect_from_file`: non-existent path gives `UNKNOWN`;
otherwise the lowercased suffix is tried against `EXTENSION_MAP` first,
and only when it is absent are the first 512 bytes sniffed.  (The
`except (OSError, IOError)` branch around the read is unreachable in the
model, where reading an existing file always succeeds.)
-/
def detect_from_file (file : Option DiskFile) : Option String × FileType :=
  match file with
  | none => (none, FileType.UNKNOWN)
  | some f =>
    match dictGet EXTENSION_MAP (pyLower f.suffix) with
    | some t => (some (pyLower f.suffix), t)
    | none => detect_from_content (f.content.take 512)

/--
`FileDetector.validate_file`: missing path, empty file and files under
10 bytes are rejected; then the detected type is compared with the
expected one — the mismatch check fires only when an expected type was
supplied (a `FileType` member is always truthy) and the detected type is
not `UNKNOWN`.
-/
def validate_file (file : Option DiskFile) (expected : Option FileType) : Bool × String :=
  match file with
  | none => (false, "File does not exist")
  | some f =>
    if f.content.length = 0 then (false, "File is empty")
    else if f.content.length < 10 then (false, "File is too small to be valid")
    else
      let det := (detect_from_file (some f)).2
      match expected with
      | some e =>
        if det ≠ FileType.UNKNOWN ∧ det ≠ e then
          (false, "File type mismatch: expected " ++ ftValue e ++ ", got " ++ ftValue det)
        else (true, "OK")
      | none => (true, "OK")

/-! ## printavo_api.py -/

/--
Outcome of one `self.request(endpoint, {page, per_page})` call, i.e. the
JSON the HTTP layer hands back to the pagination loop:
`nullResp` is Python `None` (request failed after retries), `arrResp` a
bare JSON array, `objResp` a dict with its `data` list (default `[]`)
and the `meta.total_pages` / `meta.total_count` values (`Option.none`
when absent, `total_pages` defaulting to 1 at use sites), and
`otherResp` any JSON that is neither a list nor a dict (the final
`else: break` branch).
-/
inductive PageResponse (α : Type) where
  | nullResp : PageResponse α
  | arrResp (items : List α) : PageResponse α
  | objResp (data : List α) (totalPages totalCount : Option Nat) : PageResponse α
  | otherResp : PageResponse α
deriving DecidableEq

/--
The checkpoint entries `fetch_paginated` reads on entry: the value under
`f"{endpoint}_page"` and the one under `f"{endpoint}_data"`.  The data
entry is consulted only when the page entry is present, mirroring the
nesting in the source.
-/
structure Checkpoint (α : Type) where
  resumePage : Option Nat
  resumeData : Option (List α)

/-- A checkpoint with neither key present (fresh start). -/
def emptyCheckpoint {α : Type} : Checkpoint α := ⟨none, none⟩

/--
The `while True:` body of `PrintavoAPI.fetch_paginated`, with explicit
fuel.  Returns the accumulated `all_data` together with the number of
`self.request` calls made.  A `None` or non-list/non-dict response
breaks without extending; a bare list counts as `total_pages = 1`; a
dict uses `meta.get('total_pages', 1)`.  After extending, the loop
breaks when `page >= total_pages`, else continues with `page + 1`.
There is no check on `data` being empty.  (The `on_page` callback and
the every-5-pages checkpoint write have no effect on either component.)
-/
def fetchPaginatedAux {α : Type} (pages : Nat → PageResponse α) :
    Nat → List α → Nat → Nat → List α × Nat
  | 0, acc, _, reqs => (acc, reqs)
  | fuel + 1, acc, page, reqs =>
    match pages page with
    | PageResponse.nullResp => (acc, reqs + 1)
    | PageResponse.otherResp => (acc, reqs + 1)
    | PageResponse.arrResp items =>
      if page ≥ 1 then (acc ++ items, reqs + 1)
      else fetchPaginatedAux pages fuel (acc ++ items) (page + 1) (reqs + 1)
    | PageResponse.objResp data tp _ =>
      if page ≥ tp.getD 1 then (acc ++ data, reqs + 1)
      else fetchPaginatedAux pages fuel (acc ++ data) (page + 1) (reqs + 1)

/--
`PrintavoAPI.fetch_paginated` with its request counter: `page` starts at
1 unless the checkpoint has a resume point, in which case previously
accumulated data is also reloaded; then the pagination loop runs.
-/
def fetchPaginatedRun {α : Type} (pages : Nat → PageResponse α)
    (cp : Checkpoint α) (fuel : Nat) : List α × Nat :=
  let page := cp.resumePage.getD 1
  let acc : List α :=
    match cp.resumePage with
    | some _ => cp.resumeData.getD []
    | none => []
  fetchPaginatedAux pages fuel acc page 0

/-- The return value of `PrintavoAPI.fetch_paginated` (the item list). -/
def fetch_paginated {α : Type} (pages : Nat → PageResponse α)
    (cp : Checkpoint α) (fuel : Nat) : List α :=
  (fetchPaginatedRun pages cp fuel).1

/--
The `while True:` body of `PrintavoAPI.iter_orders`, with explicit fuel;
returns the list of yielded orders in yield order.  Unlike
`fetch_paginated`, an empty `data` breaks the loop before yielding; the
total-pages check (`meta` being `{}` for a bare list) runs after the
yields.
-/
def iterOrdersAux {α : Type} (pages : Nat → PageResponse α) :
    Nat → Nat → List α
  | 0, _ => []
  | fuel + 1, page =>
    match pages page with
    | PageResponse.nullResp => []
    | PageResponse.otherResp => []
    | PageResponse.arrResp items =>
      if items.isEmpty then []
      else if page ≥ 1 then items
      else items ++ iterOrdersAux pages fuel (page + 1)
    | PageResponse.objResp data tp _ =>
      if data.isEmpty then []
      else if page ≥ tp.getD 1 then data
      else data ++ iterOrdersAux pages fuel (page + 1)

/-- `PrintavoAPI.iter_orders`: the streaming path, starting at page 1. -/
def iter_orders {α : Type} (pages : Nat → PageResponse α) (fuel : Nat) : List α :=
  iterOrdersAux pages fuel 1

/-- A page response whose item list is non-empty (trivially true for the
break-inducing `None` / non-JSON-object responses). -/
def pageNonempty {α : Type} : PageResponse α → Prop
  | PageResponse.arrResp items => items ≠ []
  | PageResponse.objResp data _ _ => data ≠ []
  | _ => True

/-! ## printavo_scraper.py — resize-transform resolution -/

/-- The character class `[A-Za-z0-9]` of the resize regex. -/
def alnumChar (c : Char) : Bool := c.isAlpha || c.isDigit

/-- The literal part of the regex `(https://cdn\.filepicker\.io/[A-Za-z0-9]+)`. -/
def cdnHandleBase : List Char := "https://cdn.filepicker.io/".data

/-- One anchored attempt of the resize regex: the literal followed by a
maximal non-empty alphanumeric run. -/
def regexMatchAt (cs : List Char) : Option (List Char) :=
  if cdnHandleBase.isPrefixOf cs then
    let run := (cs.drop cdnHandleBase.length).takeWhile alnumChar
    if run.isEmpty then none else some (cdnHandleBase ++ run)
  else none

/-- `re.search` for the resize regex: the leftmost position where the
anchored attempt succeeds. -/
def regexSearchCdn : List Char → Option (List Char)
  | [] => none
  | c :: cs =>
    match regexMatchAt (c :: cs) with
    | some r => some r
    | none => regexSearchCdn cs

/--
The "Get original file URL (remove resize parameters)" step of
`PrintavoScraper._extract_file_urls`: only when the URL contains both
`'filestackcontent.com'` and `'resize='` is the regex searched, and only
when it matches is the URL replaced by the matched group.
-/
def resolveOriginalUrl (url : String) : String :=
  if (hasSeg "filestackcontent.com".data url.data &&
      hasSeg "resize=".data url.data) then
    match regexSearchCdn url.data with
    | some m => String.mk m
    | none => url
  else url

/-! ## minio_uploader.py -/

/-- `UploadStats` dataclass from `minio_uploader.py`. -/
structure UploadStats where
  files_uploaded : Nat
  bytes_uploaded : Nat
  files_skipped : Nat
  files_failed : Nat
  errors : List String
deriving DecidableEq

/-- The dataclass defaults: all counters 0, empty error list. -/
def emptyUploadStats : UploadStats := ⟨0, 0, 0, 0, []⟩

/-- One file under `local_dir`, as `sync_directory` sees it: its path
relative to `local_dir` and its size in bytes. -/
structure LocalFile where
  relPath : String
  size : Nat
deriving DecidableEq

/--
Outcome of the object-store interaction for one file:
`alreadyExists` — `stat_object` succeeds, the file is skipped;
`uploadOk` — `stat_object` raises `S3Error`, `fput_object` succeeds;
`uploadFail msg` — `stat_object` raises `S3Error`, `fput_object` raises
`S3Error` with text `msg`.
-/
inductive RemoteOutcome where
  | alreadyExists : RemoteOutcome
  | uploadOk : RemoteOutcome
  | uploadFail (msg : String) : RemoteOutcome
deriving DecidableEq

/-- The two dict shapes `sync_directory` returns. -/
inductive SyncResult where
  | errorResult (reason : String) : SyncResult
  | success (uploaded skipped failed : Nat) : SyncResult
deriving DecidableEq

/--
The `for i, file_path in enumerate(local_files)` loop of
`MinIOUploader.sync_directory`: threads the local `uploaded` / `skipped`
counters and the `self.stats` object.  A skip bumps `files_skipped`; a
successful upload bumps `files_uploaded` and adds the file size to
`bytes_uploaded`; a failed upload bumps `files_failed` and appends
`"Upload failed {rel_path}: {str(e)}"` to `errors`.  (The `on_progress`
callback has no effect on any of these.)
-/
def syncAux (files : List (LocalFile × RemoteOutcome))
    (uploaded skipped : Nat) (stats : UploadStats) : Nat × Nat × UploadStats :=
  match files with
  | [] => (uploaded, skipped, stats)
  | (f, o) :: rest =>
    match o with
    | RemoteOutcome.alreadyExists =>
      syncAux rest uploaded (skipped + 1)
        { stats with files_skipped := stats.files_skipped + 1 }
    | RemoteOutcome.uploadOk =>
      syncAux rest (uploaded + 1) skipped
        { stats with
            files_uploaded := stats.files_uploaded + 1,
            bytes_uploaded := stats.bytes_uploaded + f.size }
    | RemoteOutcome.uploadFail msg =>
      syncAux rest uploaded skipped
        { stats with
            files_failed := stats.files_failed + 1,
            errors := stats.errors ++
              ["Upload failed " ++ f.relPath ++ ": " ++ msg] }

/--
`MinIOUploader.sync_directory`: returns the result dict and the final
`self.stats`.  `connected` stands for `self._connected or self.connect()`;
when it is false the error dict is returned and no file is touched.  The
`failed` field of the success dict is `self.stats.files_failed`, i.e. the
cumulative counter including failures from before this call.
-/
def sync_directory (connected : Bool)
    (files : List (LocalFile × RemoteOutcome))
    (stats : UploadStats) : SyncResult × UploadStats :=
  if connected then
    let r := syncAux files 0 0 stats
    (SyncResult.success r.1 r.2.1 r.2.2.files_failed, r.2.2)
  else (SyncResult.errorResult "connection failed", stats)

/-- Number of files in a sync input whose upload fails. -/
def countFails (files : List (LocalFile × RemoteOutcome)) : Nat :=
  files.countP (fun fo =>
    match fo.2 with
    | RemoteOutcome.uploadFail _ => true
    | _ => false)

/-! ## Concrete page-response sequences used by the claims -/

/--
The two-page scenario: page 1 is
`{data: [x1,x2,x3], meta: {total_pages: 2, total_count: 5}}`, page 2 is
`{data: [x4,x5], meta: {total_pages: 2}}`, any further request fails.
-/
def twoPageScenario (x1 x2 x3 x4 x5 : Nat) : Nat → PageResponse Nat :=
  fun p =>
    if p = 1 then PageResponse.objResp [x1, x2, x3] (some 2) (some 5)
    else if p = 2 then PageResponse.objResp [x4, x5] (some 2) none
    else PageResponse.nullResp

/--
A sequence whose first page is `{data: [], meta: {total_pages: 2}}` and
whose second page is `{data: [99], meta: {total_pages: 2}}`.
-/
def emptyFirstPage : Nat → PageResponse Nat :=
  fun p =>
    if p = 1 then PageResponse.objResp [] (some 2) none
    else if p = 2 then PageResponse.objResp [99] (some 2) none
    else PageResponse.nullResp

/-! ## Claim theorems -/

/--
C1: for the two-page response sequence where page 1 returns
`{data: [3 items], meta: {total_pages: 2, total_count: 5}}` and page 2
returns `{data: [2 items], meta: {total_pages: 2}}`, `fetch_paginated`
started with an empty checkpoint returns exactly the 5 entities in page
order and makes exactly 2 page requests.
-/
theorem C1_two_page_scenario (x1 x2 x3 x4 x5 : Nat) :
    fetchPaginatedRun (twoPageScenario x1 x2 x3 x4 x5) emptyCheckpoint 10 =
      ([x1, x2, x3, x4, x5], 2) := rfl

/--
C2, counterexample: in `fetch_paginated` a page returning zero items does
not stop pagination.  Page 1 of `emptyFirstPage` returns
`{data: [], meta: {total_pages: 2}}`, yet a second page request is made
(total requests 2, and the item from page 2 is returned), contradicting
"stops immediately when a page returns zero items".
-/
theorem C2_counterexample :
    emptyFirstPage 1 = PageResponse.objResp [] (some 2) none ∧
    fetchPaginatedRun emptyFirstPage emptyCheckpoint 10 = ([99], 2) :=
  ⟨rfl, rfl⟩

/--
C2 (amended): for every sequence of page responses, `fetch_paginated`
stops requesting further pages exactly when the page counter reaches the
reported `total_pages` (defaulting to 1 when absent): on a
`{data, meta}` response at a page at or past the reported total it
returns after that single request, and below the reported total it
always continues to the next page — a page returning zero items does not
stop pagination (that early stop exists only in `iter_orders`).
-/
theorem C2_stop_at_total {α : Type} (pages : Nat → PageResponse α)
    (fuel : Nat) (acc : List α) (page reqs : Nat) (data : List α)
    (tp tc : Option Nat)
    (h : pages page = PageResponse.objResp data tp tc) :
    (page ≥ tp.getD 1 →
      fetchPaginatedAux pages (fuel + 1) acc page reqs = (acc ++ data, reqs + 1)) ∧
    (page < tp.getD 1 →
      fetchPaginatedAux pages (fuel + 1) acc page reqs =
        fetchPaginatedAux pages fuel (acc ++ data) (page + 1) (reqs + 1)) := by
  constructor
  · intro h2
    simp only [fetchPaginatedAux, h]
    rw [if_pos h2]
  · intro h2
    simp only [fetchPaginatedAux, h]
    rw [if_neg (by omega)]

/-- C2 witness: the stop-at-total theorem applied at a concrete input. -/
theorem C2_stop_at_total_witness :
    fetchPaginatedAux (fun _ => PageResponse.objResp [5] (some 1) none)
      1 ([] : List Nat) 1 0 = ([5], 1) :=
  (C2_stop_at_total (fun _ => PageResponse.objResp [5] (some 1) none)
    0 [] 1 0 [5] (some 1) none rfl).1 (by decide)

/--
A page-response sequence on which the two access paths diverge: page 1
returns `{data: [], meta: {total_pages: 2}}`, page 2 returns
`{data: [7], meta: {total_pages: 2}}`.
-/
def divergingPages : Nat → PageResponse Nat :=
  fun p =>
    if p = 1 then PageResponse.objResp [] (some 2) none
    else if p = 2 then PageResponse.objResp [7] (some 2) none
    else PageResponse.nullResp

/--
C3, counterexample: on `divergingPages` the streaming path stops at the
empty first page and yields nothing, while the bulk path continues to
page 2 and returns its item, so the two paths do not agree for every
sequence of page responses.
-/
theorem C3_counterexample :
    iter_orders divergingPages 10 = [] ∧
    fetch_paginated divergingPages emptyCheckpoint 10 = [7] ∧
    iter_orders divergingPages 10 ≠ fetch_paginated divergingPages emptyCheckpoint 10 :=
  ⟨rfl, rfl, by decide⟩

/--
When every page response is non-empty, the collect-all loop and the
streaming loop produce the same items from any loop state: the final
`all_data` of `fetch_paginated` is its starting accumulator followed by
exactly the entities `iter_orders` would yield from the same page.
-/
theorem fetchAux_eq_iterAux {α : Type} (pages : Nat → PageResponse α)
    (h : ∀ p, pageNonempty (pages p)) :
    ∀ (fuel page : Nat) (acc : List α) (reqs : Nat),
      (fetchPaginatedAux pages fuel acc page reqs).1 =
        acc ++ iterOrdersAux pages fuel page := by
  intro fuel
  induction fuel with
  | zero =>
    intro page acc reqs
    simp [fetchPaginatedAux, iterOrdersAux]
  | succ n ih =>
    intro page acc reqs
    cases hp : pages page with
    | nullResp => simp [fetchPaginatedAux, iterOrdersAux, hp]
    | otherResp => simp [fetchPaginatedAux, iterOrdersAux, hp]
    | arrResp items =>
      have hne : items ≠ [] := by
        have := h page
        rw [hp] at this
        exact this
      simp only [fetchPaginatedAux, iterOrdersAux, hp,
        List.isEmpty_eq_false_iff_exists_mem.mpr
          (List.exists_mem_of_ne_nil items hne)]
      by_cases hge : page ≥ 1
      · rw [if_pos hge, if_pos hge]
        simp
      · rw [if_neg hge, if_neg hge, ih]
        simp
    | objResp data tp tc =>
      have hne : data ≠ [] := by
        have := h page
        rw [hp] at this
        exact this
      simp only [fetchPaginatedAux, iterOrdersAux, hp,
        List.isEmpty_eq_false_iff_exists_mem.mpr
          (List.exists_mem_of_ne_nil data hne)]
      by_cases hge : page ≥ tp.getD 1
      · rw [if_pos hge, if_pos hge]
        simp
      · rw [if_neg hge, if_neg hge, ih]
        simp

/--
C3 (amended): for every sequence of page responses in which every page
carries at least one item, and starting from an empty checkpoint, the
streaming path `iter_orders` yields exactly the same entities in the
same order as the bulk path `fetch_paginated`; when some fetched page is
empty the two can diverge, because only `iter_orders` stops on an empty
page.
-/
theorem C3_streaming_matches_bulk {α : Type} (pages : Nat → PageResponse α)
    (fuel : Nat) (h : ∀ p, pageNonempty (pages p)) :
    iter_orders pages fuel = fetch_paginated pages emptyCheckpoint fuel := by
  unfold iter_orders fetch_paginated fetchPaginatedRun emptyCheckpoint
  rw [fetchAux_eq_iterAux pages h]
  simp

/-- C3 witness: the equivalence applied to a concrete all-pages-non-empty
sequence. -/
theorem C3_streaming_matches_bulk_witness :
    iter_orders (fun _ => PageResponse.objResp [0] (some 1) none) 3 =
      fetch_paginated (fun _ => PageResponse.objResp [0] (some 1) none)
        emptyCheckpoint 3 :=
  C3_streaming_matches_bulk _ 3 (fun p => by simp [pageNonempty])

/--
C7: the `EXTENSION_MAP` literal lists `'.ai'` twice (`VECTOR` in the
vector block, `SOURCE` in the source block); the later entry overwrites
the earlier one, so extension-based classification of `ai` — in any
casing, with or without the leading dot — returns `SOURCE`, never
`VECTOR`.  This evaluates the code at the failing input of the claim.
-/
theorem C7_ai_classified_as_source :
    categorize_extension "ai" = FileType.SOURCE ∧
    categorize_extension ".ai" = FileType.SOURCE ∧
    categorize_extension ".AI" = FileType.SOURCE ∧
    (EXTENSION_MAP.filter (fun e => e.1 == ".ai")).map (fun e => e.2) =
      [FileType.VECTOR, FileType.SOURCE] := by
  refine ⟨rfl, rfl, ?_, rfl⟩
  rfl

/--
C8, counterexample: the claim requires the source priority to be
strictly greater than the document priority, but in `PRIORITY` both are
3, so `source > document` fails.
-/
theorem C8_counterexample :
    get_priority FileType.SOURCE = 3 ∧
    get_priority FileType.DOCUMENT = 3 ∧
    ¬ get_priority FileType.SOURCE > get_priority FileType.DOCUMENT := by
  refine ⟨rfl, rfl, ?_⟩
  decide

/--
C8 (amended): the fixed numeric ranking satisfies
embroidery (5) > vector (4) > source (3) = document (3) > artwork (2) >
unknown (0); embroidery is strictly the highest, but source ties with
document instead of strictly exceeding it.
-/
theorem C8_priority_ranking :
    get_priority FileType.EMBROIDERY > get_priority FileType.VECTOR ∧
    get_priority FileType.VECTOR > get_priority FileType.SOURCE ∧
    get_priority FileType.SOURCE = get_priority FileType.DOCUMENT ∧
    get_priority FileType.DOCUMENT > get_priority FileType.ARTWORK ∧
    get_priority FileType.ARTWORK > get_priority FileType.UNKNOWN := by
  decide

/--
C5, counterexample: an existing file consisting of exactly the 8 PNG
magic bytes `89 50 4E 47 0D 0A 1A 0A` has leading bytes matching the
magic-byte signature mapped to artwork, yet `validate_file` with
expected type artwork rejects it, because files under 10 bytes fail the
minimum-size check before any content detection runs.
-/
theorem C5_counterexample :
    MAGIC_BYTES.find?
        (fun me => me.1.isPrefixOf [0x89, 0x50, 0x4E, 0x47, 0x0D, 0x0A, 0x1A, 0x0A]) =
      some ([0x89, 0x50, 0x4E, 0x47, 0x0D, 0x0A, 0x1A, 0x0A], ".png") ∧
    dictGet EXTENSION_MAP ".png" = some FileType.ARTWORK ∧
    validate_file (some ⟨"", [0x89, 0x50, 0x4E, 0x47, 0x0D, 0x0A, 0x1A, 0x0A]⟩)
        (some FileType.ARTWORK) =
      (false, "File is too small to be valid") :=
  ⟨rfl, rfl, rfl⟩

/--
C5 (amended): `validate_file` returns invalid for every non-existent
path and every zero-byte file; and it returns valid for every existing
file of at least 10 bytes whose extension is not in the extension table
and whose leading bytes match the magic-byte signature mapped to the
supplied expected type.  (The two qualifications are forced by the code:
files under 10 bytes are rejected as too small, and a recognized
extension takes precedence over the magic bytes during detection.)
-/
theorem C5_validate_file :
    (∀ e : Option FileType,
      validate_file none e = (false, "File does not exist")) ∧
    (∀ (sfx : String) (e : Option FileType),
      validate_file (some ⟨sfx, []⟩) e = (false, "File is empty")) ∧
    (∀ (sfx : String) (content : List Nat) (m : List Nat) (mext : String)
        (expected : FileType),
      content.length ≥ 10 →
      dictGet EXTENSION_MAP (pyLower sfx) = none →
      MAGIC_BYTES.find? (fun me => me.1.isPrefixOf (content.take 512)) =
        some (m, mext) →
      dictGet EXTENSION_MAP mext = some expected →
      validate_file (some ⟨sfx, content⟩) (some expected) = (true, "OK")) := by
  refine ⟨fun e => rfl, fun sfx e => rfl, ?_⟩
  intro sfx content m mext expected h10 hext hfind hmap
  have hdet : detect_from_file (some ⟨sfx, content⟩) = (some mext, expected) := by
    simp only [detect_from_file]
    rw [hext]
    simp only [detect_from_content]
    have hlen : ¬ (content.take 512).length < 4 := by
      rw [List.length_take]
      omega
    rw [if_neg hlen, hfind]
    dsimp only
    rw [hmap]
    rfl
  simp only [validate_file]
  rw [if_neg (by omega : ¬ content.length = 0),
      if_neg (by omega : ¬ content.length < 10)]
  rw [hdet]
  simp

/-- C5 witness: a 10-byte extensionless file starting with the PNG magic
validates as artwork. -/
theorem C5_validate_file_witness :
    validate_file
        (some ⟨"", [0x89, 0x50, 0x4E, 0x47, 0x0D, 0x0A, 0x1A, 0x0A, 0, 0]⟩)
        (some FileType.ARTWORK) = (true, "OK") :=
  C5_validate_file.2.2 "" [0x89, 0x50, 0x4E, 0x47, 0x0D, 0x0A, 0x1A, 0x0A, 0, 0]
    [0x89, 0x50, 0x4E, 0x47, 0x0D, 0x0A, 0x1A, 0x0A] ".png" FileType.ARTWORK
    (by decide) rfl rfl rfl

/--
C10: for every existing file of at least 10 bytes whose extension is not
in the extension table and whose content sniffing yields `UNKNOWN` (no
magic-byte signature and no embroidery heuristic matches),
`validate_file` returns valid even when a specific expected type is
supplied: the type-mismatch check fires only when content detection
yields a known type.
-/
theorem C10_unknown_detection_passes (sfx : String) (content : List Nat)
    (expected : FileType)
    (h10 : content.length ≥ 10)
    (hext : dictGet EXTENSION_MAP (pyLower sfx) = none)
    (hdet : (detect_from_content (content.take 512)).2 = FileType.UNKNOWN) :
    validate_file (some ⟨sfx, content⟩) (some expected) = (true, "OK") := by
  have hfile : (detect_from_file (some ⟨sfx, content⟩)).2 = FileType.UNKNOWN := by
    simp only [detect_from_file]
    rw [hext]
    exact hdet
  simp only [validate_file]
  rw [if_neg (by omega : ¬ content.length = 0),
      if_neg (by omega : ¬ content.length < 10)]
  rw [hfile]
  simp

/-- C10 witness: a 10-byte all-zero file with unmapped extension `.xyz`
validates against an expected type of embroidery. -/
theorem C10_unknown_detection_passes_witness :
    validate_file (some ⟨".xyz", [0, 0, 0, 0, 0, 0, 0, 0, 0, 0]⟩)
      (some FileType.EMBROIDERY) = (true, "OK") :=
  C10_unknown_detection_passes ".xyz" [0, 0, 0, 0, 0, 0, 0, 0, 0, 0]
    FileType.EMBROIDERY (by decide) rfl rfl

/--
When every file already exists remotely, the sync loop only bumps the
skip counters: from any loop state it returns the starting `uploaded`,
the starting `skipped` plus the file count, and stats with only
`files_skipped` increased by the file count.
-/
theorem syncAux_all_exist (files : List (LocalFile × RemoteOutcome)) :
    ∀ (uploaded skipped : Nat) (stats : UploadStats),
      (∀ fo ∈ files, fo.2 = RemoteOutcome.alreadyExists) →
      syncAux files uploaded skipped stats =
        (uploaded, skipped + files.length,
          { stats with files_skipped := stats.files_skipped + files.length }) := by
  induction files with
  | nil =>
    intro uploaded skipped stats _
    simp [syncAux]
  | cons fo rest ih =>
    intro uploaded skipped stats h
    obtain ⟨f, o⟩ := fo
    have ho : o = RemoteOutcome.alreadyExists := h (f, o) (List.mem_cons_self _ _)
    subst ho
    simp only [syncAux]
    rw [ih (uploaded) (skipped + 1)
      { stats with files_skipped := stats.files_skipped + 1 }
      (fun x hx => h x (List.mem_cons_of_mem _ hx))]
    cases stats
    simp only [List.length_cons]
    have e2 : ∀ n : Nat, n + 1 + rest.length = n + (rest.length + 1) := by omega
    simp only [e2]

/--
C4: if every file under the local directory already exists as an object
at its target path in the bucket, `sync_directory` performs zero new
uploads and reports a skipped count equal to the total number of local
files; the only statistic that changes is `files_skipped`.
-/
theorem C4_idempotent_sync (files : List (LocalFile × RemoteOutcome))
    (stats : UploadStats)
    (h : ∀ fo ∈ files, fo.2 = RemoteOutcome.alreadyExists) :
    sync_directory true files stats =
      (SyncResult.success 0 files.length stats.files_failed,
        { stats with files_skipped := stats.files_skipped + files.length }) := by
  simp only [sync_directory, if_pos]
  rw [syncAux_all_exist files 0 0 stats h]
  simp

/-- C4 witness: a two-file directory whose objects both already exist
syncs with zero uploads and a skip count of 2. -/
theorem C4_idempotent_sync_witness :
    sync_directory true
        [(⟨"a.png", 3⟩, RemoteOutcome.alreadyExists),
         (⟨"b.pdf", 4⟩, RemoteOutcome.alreadyExists)]
        emptyUploadStats =
      (SyncResult.success 0 2 0, ⟨0, 0, 2, 0, []⟩) :=
  C4_idempotent_sync
    [(⟨"a.png", 3⟩, RemoteOutcome.alreadyExists),
     (⟨"b.pdf", 4⟩, RemoteOutcome.alreadyExists)]
    emptyUploadStats (by decide)

/--
The error list only ever grows during the sync loop: the starting
`stats.errors` is a prefix of the final one.
-/
theorem syncAux_errors_grow (files : List (LocalFile × RemoteOutcome)) :
    ∀ (uploaded skipped : Nat) (stats : UploadStats),
      stats.errors <+: ((syncAux files uploaded skipped stats).2.2).errors := by
  induction files with
  | nil =>
    intro uploaded skipped stats
    simp [syncAux]
  | cons fo rest ih =>
    intro uploaded skipped stats
    obtain ⟨f, o⟩ := fo
    cases o with
    | alreadyExists =>
      simp only [syncAux]
      exact ih uploaded (skipped + 1)
        { stats with files_skipped := stats.files_skipped + 1 }
    | uploadOk =>
      simp only [syncAux]
      exact ih (uploaded + 1) skipped
        { stats with
            files_uploaded := stats.files_uploaded + 1,
            bytes_uploaded := stats.bytes_uploaded + f.size }
    | uploadFail msg =>
      simp only [syncAux]
      refine List.IsPrefix.trans ?_
        (ih uploaded skipped
          { stats with
              files_failed := stats.files_failed + 1,
              errors := stats.errors ++
                ["Upload failed " ++ f.relPath ++ ": " ++ msg] })
      exact List.prefix_append _ _

/--
One error entry is appended per failed upload: the final error-list
length is the starting one plus the number of failing files.
-/
theorem syncAux_errors_length (files : List (LocalFile × RemoteOutcome)) :
    ∀ (uploaded skipped : Nat) (stats : UploadStats),
      ((syncAux files uploaded skipped stats).2.2).errors.length =
        stats.errors.length + countFails files := by
  induction files with
  | nil =>
    intro uploaded skipped stats
    simp [syncAux, countFails]
  | cons fo rest ih =>
    intro uploaded skipped stats
    obtain ⟨f, o⟩ := fo
    cases o with
    | alreadyExists =>
      simp only [syncAux, ih, countFails, List.countP_cons]
      simp [countFails]
    | uploadOk =>
      simp only [syncAux, ih, countFails, List.countP_cons]
      simp [countFails]
    | uploadFail msg =>
      simp only [syncAux, ih, countFails, List.countP_cons]
      simp [countFails]
      omega

/--
Every failing file's error entry ends up in the final error list.
-/
theorem syncAux_errors_mem (files : List (LocalFile × RemoteOutcome)) :
    ∀ (uploaded skipped : Nat) (stats : UploadStats) (f : LocalFile) (msg : String),
      (f, RemoteOutcome.uploadFail msg) ∈ files →
      ("Upload failed " ++ f.relPath ++ ": " ++ msg) ∈
        ((syncAux files uploaded skipped stats).2.2).errors := by
  induction files with
  | nil =>
    intro uploaded skipped stats f msg hmem
    simp at hmem
  | cons fo rest ih =>
    intro uploaded skipped stats f msg hmem
    obtain ⟨g, o⟩ := fo
    rcases List.mem_cons.mp hmem with heq | htail
    · have hg : g = f := congrArg Prod.fst heq.symm
      have ho : o = RemoteOutcome.uploadFail msg := congrArg Prod.snd heq.symm
      subst hg
      subst ho
      simp only [syncAux]
      apply (syncAux_errors_grow rest _ _ _).subset
      simp
    · cases o with
      | alreadyExists => exact ih _ _ _ f msg htail
      | uploadOk => exact ih _ _ _ f msg htail
      | uploadFail m2 => exact ih _ _ _ f msg htail

/-- A local file whose upload always fails with message `"boom"`. -/
def failingEntry : LocalFile × RemoteOutcome :=
  (⟨"f.png", 1⟩, RemoteOutcome.uploadFail "boom")

/-- `countFails` of `n` copies of `failingEntry` is `n`. -/
theorem countFails_replicate_failing (n : Nat) :
    countFails (List.replicate n failingEntry) = n := by
  induction n with
  | zero => simp [countFails]
  | succ k ih =>
    simp only [List.replicate_succ, countFails, List.countP_cons] at *
    simp [failingEntry] at *
    omega

/--
C9, counterexample: the in-memory error list of the uploader is not
bounded by any fixed constant — for every candidate bound `c`, syncing
`c + 1` files whose uploads all fail leaves `c + 1` recorded errors,
since the code appends one entry per failure and never truncates
`self.stats.errors`.
-/
theorem C9_counterexample :
    ¬ ∃ c : Nat, ∀ files : List (LocalFile × RemoteOutcome),
      ((sync_directory true files emptyUploadStats).2).errors.length ≤ c := by
  rintro ⟨c, h⟩
  have hb := h (List.replicate (c + 1) failingEntry)
  have hlen :
      ((sync_directory true (List.replicate (c + 1) failingEntry)
          emptyUploadStats).2).errors.length = c + 1 := by
    have h0 :
        (sync_directory true (List.replicate (c + 1) failingEntry)
            emptyUploadStats).2 =
          (syncAux (List.replicate (c + 1) failingEntry) 0 0
            emptyUploadStats).2.2 := rfl
    rw [h0, syncAux_errors_length, countFails_replicate_failing]
    simp [emptyUploadStats]
  omega

/--
C9 (amended): every failed object upload is recorded — the error list
grows by exactly one entry per failed file, and for each failing file
the entry `"Upload failed {rel_path}: {error}"` carrying its relative
target path and error text is in the list — but the list is unbounded
(one entry per failure, never truncated); only the operator-facing
`get_stats` views are bounded (the uploader reports just the count, the
API client just the last 10 messages).
-/
theorem C9_failures_recorded (files : List (LocalFile × RemoteOutcome))
    (stats : UploadStats) :
    ((sync_directory true files stats).2).errors.length =
      stats.errors.length + countFails files ∧
    ∀ (f : LocalFile) (msg : String),
      (f, RemoteOutcome.uploadFail msg) ∈ files →
      ("Upload failed " ++ f.relPath ++ ": " ++ msg) ∈
        ((sync_directory true files stats).2).errors := by
  constructor
  · exact syncAux_errors_length files 0 0 stats
  · intro f msg hmem
    exact syncAux_errors_mem files 0 0 stats f msg hmem

/-- C9 witness: a single failing upload leaves exactly its error entry
in the list. -/
theorem C9_failures_recorded_witness :
    ("Upload failed " ++ "f.png" ++ ": " ++ "boom") ∈
      ((sync_directory true [failingEntry] emptyUploadStats).2).errors :=
  (C9_failures_recorded [failingEntry] emptyUploadStats).2
    ⟨"f.png", 1⟩ "boom" (by simp [failingEntry])

/--
Whatever the resize regex search returns is the CDN base followed by a
non-empty alphanumeric handle.
-/
theorem regexSearchCdn_shape (cs : List Char) :
    ∀ m : List Char, regexSearchCdn cs = some m →
      ∃ run, m = cdnHandleBase ++ run ∧ run ≠ [] ∧
        ∀ c ∈ run, alnumChar c = true := by
  induction cs with
  | nil =>
    intro m h
    simp [regexSearchCdn] at h
  | cons c rest ih =>
    intro m h
    rw [regexSearchCdn] at h
    cases hm : regexMatchAt (c :: rest) with
    | some r =>
      rw [hm] at h
      have hrm : r = m := by
        simpa using h
      subst hrm
      simp only [regexMatchAt] at hm
      split at hm
      · split at hm
        · exact absurd hm (by simp)
        · rename_i hne2
          refine ⟨_, by simpa using hm.symm, ?_, ?_⟩
          · intro hnil
            rw [hnil] at hne2
            simp at hne2
          · intro ch hch
            exact List.mem_takeWhile_imp hch
      · exact absurd hm (by simp)
    | none =>
      rw [hm] at h
      exact ih m h

/--
A URL that does contain a CDN resize-transform segment but is not a
`filestackcontent.com` URL (it is served from `filepicker.io`, one of
the scraper's selector hosts).
-/
def unresolvedResizeUrl : String :=
  "https://www.filepicker.io/api/file/resize=width:100/https://cdn.example.com/ABC123"

/--
C6, counterexample: `unresolvedResizeUrl` contains the resize-transform
segment `resize=width:100` yet the extraction step leaves it unchanged —
the transform segment is still present after resolution — because the
code only rewrites URLs containing `'filestackcontent.com'` and only
towards an embedded `https://cdn.filepicker.io/{handle}` original.
-/
theorem C6_counterexample :
    hasSeg "resize=".data unresolvedResizeUrl.data = true ∧
    resolveOriginalUrl unresolvedResizeUrl = unresolvedResizeUrl ∧
    hasSeg "resize=".data (resolveOriginalUrl unresolvedResizeUrl).data = true := by
  refine ⟨by decide, by decide, by decide⟩

/--
C6 (amended): a discovered URL on `filestackcontent.com` that contains a
`resize=` transform segment and whose text embeds a canonical
`https://cdn.filepicker.io/{handle}` asset URL is resolved, before
download, to that canonical URL: the result is the leftmost embedded
CDN handle URL, which starts with `https://cdn.filepicker.io/` and
contains no `resize=` transform segment.  URLs on other hosts, or
without an embedded `cdn.filepicker.io` handle, are left unchanged.
-/
theorem C6_resize_resolution (url : String) (m : List Char)
    (h1 : hasSeg "filestackcontent.com".data url.data = true)
    (h2 : hasSeg "resize=".data url.data = true)
    (h3 : regexSearchCdn url.data = some m) :
    resolveOriginalUrl url = String.mk m ∧
    cdnHandleBase <+: m ∧
    ¬ ("resize=".data <:+: m) := by
  obtain ⟨run, hm, hrun_ne, hal⟩ := regexSearchCdn_shape url.data m h3
  refine ⟨?_, ?_, ?_⟩
  · simp [resolveOriginalUrl, h1, h2, h3]
  · rw [hm]
    exact List.prefix_append _ _
  · intro hinf
    have hmem : '=' ∈ m := hinf.subset (by decide)
    rw [hm] at hmem
    rcases List.mem_append.mp hmem with hbase | hrun
    · revert hbase
      decide
    · exact absurd (hal '=' hrun) (by decide)

/-- C6 witness: the spec's example shape resolved to its canonical URL. -/
theorem C6_resize_resolution_witness :
    resolveOriginalUrl
        "https://process.filestackcontent.com/resize=width:100/https://cdn.filepicker.io/AbC123" =
      String.mk "https://cdn.filepicker.io/AbC123".data ∧
    cdnHandleBase <+: "https://cdn.filepicker.io/AbC123".data ∧
    ¬ ("resize=".data <:+: "https://cdn.filepicker.io/AbC123".data) :=
  C6_resize_resolution
    "https://process.filestackcontent.com/resize=width:100/https://cdn.filepicker.io/AbC123"
    "https://cdn.filepicker.io/AbC123".data
    (by decide) (by decide) (by decide)
